import Mathlib

/-!
Shallow embedding of `mcp_client/client.py` (the `MCPClient` class): JSON-like
Python values, the configuration-file locator, `from_config` resolution,
constructor logic (API-key and header resolution, `base_url` normalization),
and the lazy session lifecycle (`_initialize` / `close`).
-/

namespace Mcpwire

/-- Python/JSON values as produced by `json.load`, with `null` also standing
for Python `None`. -/
inductive JVal where
  | null
  | bool (b : Bool)
  | num (n : Int)
  | str (s : String)
  | arr (elems : List JVal)
  | obj (entries : List (String × JVal))

/-- Python truthiness of a value (`if v:`). -/
def JVal.truthy : JVal → Bool
  | .null => false
  | .bool b => b
  | .num n => decide (n ≠ 0)
  | .str s => decide (s ≠ "")
  | .arr l => !l.isEmpty
  | .obj l => !l.isEmpty

/-- Python `v == s` for a string literal `s`: true only when `v` is that string. -/
def JVal.eqStr : JVal → String → Bool
  | .str s, t => s == t
  | _, _ => false

/-- Python `isinstance(v, str)`. -/
def JVal.isStr : JVal → Bool
  | .str _ => true
  | _ => false

/-- Lookup in a Python dict represented as an association list (`d.get(k)`). -/
def dictGet (d : List (String × JVal)) (k : String) : Option JVal :=
  (d.find? (fun p => p.1 == k)).map (fun p => p.2)

/-- Python `d[k] = v`: replace the value in place if the key exists, else append. -/
def dictSet (d : List (String × JVal)) (k : String) (v : JVal) : List (String × JVal) :=
  if d.any (fun p => p.1 == k) then
    d.map (fun p => if p.1 == k then (k, v) else p)
  else
    d ++ [(k, v)]

/-- Python `d.update(u)`. -/
def dictUpdate (d u : List (String × JVal)) : List (String × JVal) :=
  u.foldl (fun acc p => dictSet acc p.1 p.2) d

/-- The exception kinds the source raises, by Python/library exception class. -/
inductive MCPErr where
  | fileNotFound (msg : String)
  | dataError (msg : String)
  | valueError (msg : String)
  | keyError (msg : String)
  | osError (msg : String)
  | mcpError (msg : String)
  | connectionError (msg : String)
  | typeError (msg : String)
  | attributeError (msg : String)

/-- Abstract filesystem context used by `_find_config_file`: the working
directory, the (possibly undeterminable) home directory, existence of a
regular file at a path, and `Path.resolve`. -/
structure FileSystem where
  cwd : String
  home : Option String
  isFile : String → Bool
  resolve : String → String

/-- Path concatenation, modelling `Path / name`. -/
def joinPath (a b : String) : String := a ++ "/" ++ b

def DEFAULT_TIMEOUT : Int := 60
def DEFAULT_CONFIG_FILENAME : String := "mcp.json"

/-- Outcome of opening and JSON-parsing a file (`open` + `json.load`). -/
inductive ReadResult where
  | ok (v : JVal)
  | jsonError (e : String)
  | ioError (e : String)
  | otherError (e : String)

/-- The attributes an `MCPClient` instance stores.  `exit_stack` and
`mcp_client` record whether `_exit_stack` / `_mcp_client` are non-`None`
(the stack and session objects themselves are external and opaque). -/
structure MCPClient where
  transport : JVal
  command : JVal
  args : JVal
  base_url : JVal
  timeout : JVal
  default_parameters : List (String × JVal)
  headers : List (String × JVal)
  exit_stack : Bool
  mcp_client : Bool

/-- Lowercasing as `str.lower()`, computed on the character list. -/
def strLower (s : String) : String := String.mk (s.data.map Char.toLower)

/-- Python `s.startswith(pre)`, computed on the character lists. -/
def strStartsWith (s pre : String) : Bool := pre.data.isPrefixOf s.data

/-- Python `s.rstrip('/')`: remove every trailing slash. -/
def rstripSlash (s : String) : String :=
  String.mk ((s.data.reverse.dropWhile (fun c => c == '/')).reverse)

/-- String containment (`needle in hay` for Python strings). -/
def strContains (needle hay : String) : Bool :=
  hay.data.tails.any (fun t => needle.data.isPrefixOf t)

/-- Python `"default" in container` for an arbitrary value. -/
def pyIn (needle : String) (container : JVal) : Except MCPErr Bool :=
  match container with
  | .obj kvs => .ok (kvs.any (fun p => p.1 == needle))
  | .arr xs => .ok (xs.any (fun v => v.eqStr needle))
  | .str s => .ok (strContains needle s)
  | _ => .error (.typeError ("argument is not iterable"))

/-- Python `v.get(k)` on a value that should be a dict; `AttributeError`
otherwise. -/
def pyDictGet (v : JVal) (k : String) : Except MCPErr (Option JVal) :=
  match v with
  | .obj kvs => .ok (dictGet kvs k)
  | _ => .error (.attributeError ("get"))

/-- Rough rendering of a value inside an f-string (only the string case is
relevant to the specified behaviour). -/
def pyStr : JVal → String
  | .null => "None"
  | .bool true => "True"
  | .bool false => "False"
  | .num n => toString n
  | .str s => s
  | .arr _ => "[...]"
  | .obj _ => "..."

/-- Arguments of `MCPClient.__init__` with their Python default values. -/
structure InitArgs where
  base_url : JVal := .null
  timeout : JVal := .num DEFAULT_TIMEOUT
  api_key : JVal := .null
  default_headers : JVal := .null
  default_parameters : JVal := .null
  config_default_headers : JVal := .null
  config_default_parameters : JVal := .null
  transport : JVal := .str "http"
  command : JVal := .null
  args : JVal := .null

/-- Warning text emitted when an `env:`-referenced variable is missing. -/
def missingKeyWarning (name : String) : String :=
  "API key environment variable " ++ name ++ " specified but not found."

/-- API-key resolution step of `__init__`: returns the resolved secret (as
Python holds it, possibly the empty string) and the warnings logged. -/
def resolveApiKey (api_key : JVal) (env : String → Option String) :
    Option String × List String :=
  match api_key with
  | .str k =>
    if strStartsWith k ("env:") then
      let name := k.drop 4
      match env name with
      | some v =>
        if v == "" then (some v, [missingKeyWarning name]) else (some v, [])
      | none => (none, [missingKeyWarning name])
    else (some k, [])
  | _ => (none, [])

/-- The body of `MCPClient.__init__`: normalizes `base_url`, merges default
parameters and headers, resolves the API key and synthesizes the
`Authorization` header.  Returns the constructed state and the warnings
logged. -/
def MCPClient.construct (a : InitArgs) (env : String → Option String) :
    Except MCPErr (MCPClient × List String) := do
  let args := if a.args.truthy then a.args else .arr []
  let base_url ←
    if a.base_url.truthy then
      match a.base_url with
      | .str s => pure (JVal.str (rstripSlash s))
      | _ => throw (.attributeError ("rstrip"))
    else pure JVal.null
  let dp0 : List (String × JVal) := []
  let dp1 ←
    if a.config_default_parameters.truthy then
      match a.config_default_parameters with
      | .obj kvs => pure (dictUpdate dp0 kvs)
      | _ => throw (.typeError ("update"))
    else pure dp0
  let dp2 ←
    if a.default_parameters.truthy then
      match a.default_parameters with
      | .obj kvs => pure (dictUpdate dp1 kvs)
      | _ => throw (.typeError ("update"))
    else pure dp1
  let (resolved, warns) := resolveApiKey a.api_key env
  let h0 : List (String × JVal) := []
  let h1 ←
    if a.config_default_headers.truthy then
      match a.config_default_headers with
      | .obj kvs => pure (dictUpdate h0 kvs)
      | _ => throw (.typeError ("update"))
    else pure h0
  let h2 ←
    if a.default_headers.truthy then
      match a.default_headers with
      | .obj kvs => pure (dictUpdate h1 kvs)
      | _ => throw (.typeError ("update"))
    else pure h1
  let h3 :=
    match resolved with
    | some s => if s == "" then h2 else dictSet h2 ("Authorization") (.str ("Bearer " ++ s))
    | none => h2
  return ({ transport := a.transport
          , command := a.command
          , args := args
          , base_url := base_url
          , timeout := a.timeout
          , default_parameters := dp2
          , headers := h3
          , exit_stack := false
          , mcp_client := false }, warns)

/-- The ordered candidate list `_find_config_file` builds: the explicit path
alone when given, else cwd `mcp.json`, then the home dotfile and the home
`.config` location when the home directory is determinable. -/
def configCandidates (config_path : Option String) (fs : FileSystem) : List String :=
  match config_path with
  | some p => [fs.resolve p]
  | none =>
    [joinPath fs.cwd DEFAULT_CONFIG_FILENAME] ++
      (match fs.home with
       | some h =>
         [joinPath h ("." ++ DEFAULT_CONFIG_FILENAME),
          joinPath (joinPath (joinPath h (".config")) ("mcp")) DEFAULT_CONFIG_FILENAME]
       | none => [])

/-- `MCPClient._find_config_file`: first candidate that is a regular file. -/
def find_config_file (config_path : Option String) (fs : FileSystem) : Option String :=
  (configCandidates config_path fs).find? fs.isFile

/-- Keyword overrides a caller may pass to `from_config` (`**kwargs`):
`none` means the key is absent, `some v` that it is present with value `v`
(`v = .null` is an explicit Python `None`). -/
structure Kwargs where
  base_url : Option JVal := none
  timeout : Option JVal := none
  api_key : Option JVal := none
  default_headers : Option JVal := none
  default_parameters : Option JVal := none
  transport : Option JVal := none
  command : Option JVal := none
  args : Option JVal := none

/-- Target-alias resolution inside `from_config`: explicit argument, else the
file's `default_server`, else the literal `"default"` when present among
`servers`, else `ValueError`. -/
def resolveTarget (server_name : Option String) (config_data : JVal)
    (found_path : String) : Except MCPErr JVal := do
  let t0 : JVal := match server_name with | some s => .str s | none => .null
  if t0.truthy then return t0
  let t1 := (← pyDictGet config_data ("default_server")).getD .null
  if t1.truthy then return t1
  let serversD := (← pyDictGet config_data ("servers")).getD (.obj [])
  if (← pyIn ("default") serversD) then
    return .str "default"
  else
    throw (.valueError ("No server_name specified and no default_server key or default server found in " ++ found_path ++ "."))

/-- Fetch of the named server entry in `from_config`: `MCPDataError` when the
`servers` map is missing or not a dict, `KeyError` when the entry is missing
or not a dict. -/
def getServerConfig (config_data : JVal) (target : JVal) (found_path : String) :
    Except MCPErr (List (String × JVal)) := do
  let serversD := (← pyDictGet config_data ("servers")).getD .null
  match serversD with
  | .obj kvs =>
    match (match target with | .str s => dictGet kvs s | _ => none) with
    | some (.obj sc) => return sc
    | _ => throw (.keyError ("Server configuration " ++ pyStr target ++ " not found or is not a valid dictionary in " ++ found_path ++ "."))
  | _ => throw (.dataError ("Missing or invalid servers dictionary in " ++ found_path ++ "."))

/-- The transport-specific fields extracted and validated by `from_config`. -/
structure Extracted where
  base_url : JVal
  transport : String
  command : JVal
  args : JVal

/-- Extraction and validation of `base_url` / `transport` / `command` /
`args` from the server entry, as in `from_config`. -/
def validateTransport (sc : List (String × JVal)) (targetName : String) :
    Except MCPErr Extracted := do
  let base_url0 := (dictGet sc ("base_url")).getD .null
  let transportJ := (dictGet sc ("transport")).getD (.str "http")
  let command := (dictGet sc ("command")).getD .null
  let args := (dictGet sc ("args")).getD .null
  let t ←
    match transportJ with
    | .str s => pure (strLower s)
    | _ => throw (.attributeError ("lower"))
  if t == "stdio" then
    if ¬command.truthy then
      throw (.dataError ("Missing command for stdio transport in server " ++ targetName ++ "."))
    else if ¬command.isStr then
      throw (.dataError ("Invalid command format for stdio transport in server " ++ targetName ++ ". Expected a string."))
    else
      match args with
      | .null => return { base_url := .null, transport := t, command := command, args := args }
      | .arr _ => return { base_url := .null, transport := t, command := command, args := args }
      | _ => throw (.dataError ("Invalid args format for stdio transport in server " ++ targetName ++ ". Expected a list."))
  else if t == "http" || t == "sse" then
    if ¬base_url0.truthy || ¬base_url0.isStr then
      throw (.dataError ("Missing or invalid base_url (string) for server " ++ targetName ++ " with transport " ++ t ++ "."))
    else
      return { base_url := base_url0, transport := t, command := command, args := args }
  else
    throw (.valueError ("Unsupported transport protocol " ++ t ++ " for server " ++ targetName ++ "."))

/-- Type check of the optional `default_headers` / `default_parameters`
file fields: a non-`None` non-dict value is logged and ignored. -/
def sanitizeDict (v : JVal) (warnMsg : String) : JVal × List String :=
  match v with
  | .null => (.null, [])
  | .obj kvs => (.obj kvs, [])
  | _ => (.null, [warnMsg])

/-- The filtering step over `init_kwargs`: a non-`None` value is kept; a
`None` value is kept only for the essential keys; otherwise the
constructor's default applies. -/
def filterArg (v : JVal) (essential : Bool) (dflt : JVal) : JVal :=
  match v with
  | .null => if essential then .null else dflt
  | _ => v

/-- Assembly of `init_kwargs` from overrides and file values, the `or
DEFAULT_TIMEOUT` materialization of `timeout`, and the `None`-filtering,
exactly as at the end of `from_config`. -/
def buildInitArgs (kw : Kwargs) (ex : Extracted)
    (api_key_conf timeout_conf cdh cdp : JVal) : InitArgs :=
  let transport_i := (kw.transport).getD (.str ex.transport)
  let base_url_i := (kw.base_url).getD ex.base_url
  let timeout_raw := (kw.timeout).getD timeout_conf
  let timeout_i := if timeout_raw.truthy then timeout_raw else .num DEFAULT_TIMEOUT
  let api_key_i := (kw.api_key).getD api_key_conf
  let dh_i := (kw.default_headers).getD .null
  let dp_i := (kw.default_parameters).getD .null
  let command_i := (kw.command).getD ex.command
  let args_i := (kw.args).getD ex.args
  let isHttp := transport_i.eqStr ("http")
  let isStdio := transport_i.eqStr ("stdio")
  { base_url := filterArg base_url_i isHttp .null
  , timeout := filterArg timeout_i true (.num DEFAULT_TIMEOUT)
  , api_key := filterArg api_key_i false .null
  , default_headers := filterArg dh_i false .null
  , default_parameters := filterArg dp_i false .null
  , config_default_headers := filterArg cdh false .null
  , config_default_parameters := filterArg cdp false .null
  , transport := filterArg transport_i false (.str "http")
  , command := filterArg command_i isStdio .null
  , args := filterArg args_i false .null }

/-- `MCPClient.from_config`: locate the file, parse it, resolve the target
alias, fetch and validate the server entry, merge overrides and construct
the client.  `read` abstracts open-plus-`json.load` of a path, `env` the
process environment. -/
def from_config (server_name : Option String) (config_path : Option String)
    (kw : Kwargs) (fs : FileSystem) (read : String → ReadResult)
    (env : String → Option String) : Except MCPErr (MCPClient × List String) := do
  match find_config_file config_path fs with
  | none =>
    throw (.fileNotFound ("MCP configuration file not found at " ++
      (match config_path with | some p => p | none => "None") ++
      " or in standard locations."))
  | some found =>
    let config_data ←
      match read found with
      | .ok v => pure v
      | .jsonError e =>
        throw (.dataError ("Invalid JSON in configuration file " ++ found ++ ": " ++ e))
      | .ioError e =>
        throw (.osError ("Could not read configuration file " ++ found ++ ": " ++ e))
      | .otherError e =>
        throw (.mcpError ("Unexpected error loading config file " ++ found ++ ": " ++ e))
    let target ← resolveTarget server_name config_data found
    let sc ← getServerConfig config_data target found
    let ex ← validateTransport sc (pyStr target)
    let api_key_conf := (dictGet sc ("api_key")).getD .null
    let timeout_conf := (dictGet sc ("timeout")).getD .null
    let (cdh, w1) := sanitizeDict ((dictGet sc ("default_headers")).getD .null)
      ("Invalid default_headers format. Ignoring.")
    let (cdp, w2) := sanitizeDict ((dictGet sc ("default_parameters")).getD .null)
      ("Invalid default_parameters format. Ignoring.")
    let a := buildInitArgs kw ex api_key_conf timeout_conf cdh cdp
    match MCPClient.construct a env with
    | .ok (c, w3) => return (c, w1 ++ w2 ++ w3)
    | .error e => throw e

/-- One external transport acquisition performed by `_initialize`. -/
inductive TransportOpen where
  | stdio (command : JVal) (args : JVal) (envPath : String)
  | sse (url : JVal) (headers : List (String × JVal))

/-- Result of one `_initialize` or `close` step: the exception raised (if
any), the state afterwards, and the transports opened during the step. -/
structure StepResult where
  error : Option MCPErr
  state : MCPClient
  opened : List TransportOpen

/-- `MCPClient._initialize`: a no-op when `_exit_stack` is already set;
otherwise the exit stack is created first, then the transport dispatch runs
(so a failure leaves the stack set).  External opens are modelled as
succeeding. -/
def MCPClient.init_step (c : MCPClient) (osPath : String) : StepResult :=
  if c.exit_stack then
    { error := none, state := c, opened := [] }
  else
    let c1 := { c with exit_stack := true }
    if c.transport.eqStr ("stdio") then
      { error := none
      , state := { c1 with mcp_client := true }
      , opened := [.stdio c.command c.args osPath] }
    else if c.transport.eqStr ("sse") then
      if ¬c.base_url.truthy then
        { error := some (.connectionError ("Base URL is required for SSE transport"))
        , state := c1, opened := [] }
      else
        { error := none
        , state := { c1 with mcp_client := true }
        , opened := [.sse c.base_url c.headers] }
    else if c.transport.eqStr ("http") then
      { error := some (.valueError ("HTTP transport is not supported by the official MCP library. Use sse instead."))
      , state := c1, opened := [] }
    else
      { error := some (.valueError ("Unsupported transport protocol: " ++ pyStr c.transport))
      , state := c1, opened := [] }

/-- `MCPClient.close`: release and reset when `_exit_stack` is set, else do
nothing.  The boolean reports whether the stack was actually closed (a
resource was touched). -/
def MCPClient.close (c : MCPClient) : MCPClient × Bool :=
  if c.exit_stack then
    ({ c with exit_stack := false, mcp_client := false }, true)
  else (c, false)

/-! Concrete contexts used to instantiate the theorems. -/

/-- Harness filesystem: fixed working directory, no home directory, every
path exists, `resolve` is the identity. -/
def testFS : FileSystem :=
  { cwd := "/work", home := none, isFile := fun _ => true, resolve := fun p => p }

/-- Empty process environment. -/
def noEnv : String → Option String := fun _ => none

/-- Environment in which only the variable `FOO` is (possibly) set. -/
def envFOO (r : Option String) : String → Option String :=
  fun x => if x == "FOO" then r else none

/-- Reader that yields the given parsed config regardless of path. -/
def readOf (v : JVal) : String → ReadResult := fun _ => .ok v

/-- Config file with one stdio server under the alias `default` carrying
`extra` additional fields. -/
def stdioFile (extra : List (String × JVal)) : JVal :=
  .obj [("servers", .obj [("default",
    .obj ([("transport", .str "stdio"), ("command", .str "echo")] ++ extra))])]

/-- Stdio config file whose `command` is the given string. -/
def stdioCmdFile (fc : String) : JVal :=
  .obj [("servers", .obj [("default",
    .obj [("transport", .str "stdio"), ("command", .str fc)])])]

/-- SSE config file whose `base_url` is the given string (with a `command`
field as well, unused by the sse branch). -/
def sseFile (u : String) : JVal :=
  .obj [("servers", .obj [("default",
    .obj [("transport", .str "sse"), ("base_url", .str u), ("command", .str "c")])])]

/-- Field of the client produced by a successful `from_config` or
constructor run. -/
def okField (f : MCPClient → JVal) :
    Except MCPErr (MCPClient × List String) → Option JVal
  | .ok (c, _) => some (f c)
  | .error _ => none

/-- The `Authorization` header of a successfully constructed client. -/
def okAuth : Except MCPErr (MCPClient × List String) → Option (Option JVal)
  | .ok (c, _) => some (dictGet c.headers ("Authorization"))
  | .error _ => none

/-- Headers dictionary of a successfully constructed client. -/
def okHeaders : Except MCPErr (MCPClient × List String) → Option (List (String × JVal))
  | .ok (c, _) => some c.headers
  | .error _ => none

/-- Warnings logged by a successful constructor run. -/
def okWarns : Except MCPErr (MCPClient × List String) → Option (List String)
  | .ok (_, w) => some w
  | .error _ => none

/-- A directly constructed client with transport `http`, as
`MCPClient()` with all defaults builds it. -/
def httpClient : MCPClient :=
  { transport := .str "http", command := .null, args := .arr [], base_url := .null
  , timeout := .num 60, default_parameters := [], headers := []
  , exit_stack := false, mcp_client := false }

end Mcpwire

namespace Mcpwire

/-! ## Claim theorems -/

/-- Technical reduction: the resolved timeout seen on the client is exactly
the `or DEFAULT_TIMEOUT` materialization of the override. -/
theorem timeout_pipeline_reduce (tv ov : JVal) :
    okField MCPClient.timeout
      (from_config none none { timeout := some ov } testFS (readOf (stdioFile [(("timeout"), tv)])) noEnv)
      = some (filterArg (if ov.truthy then ov else .num 60) true (.num DEFAULT_TIMEOUT)) := rfl

/-- C1 counterexample: overriding `timeout=0` (present, not absent) against a
file with no timeout yields a client whose timeout is 60, not 0, refuting the
universal per-field precedence claim. -/
theorem c1_counterexample :
    okField MCPClient.timeout
      (from_config none none { timeout := some (.num 0) } testFS (readOf (stdioFile [])) noEnv)
      = some (.num 60)
    ∧ JVal.num 60 ≠ JVal.num 0 := by
  refine ⟨rfl, ?_⟩
  intro h
  simp at h

/-- C1 amended: per-field precedence of `from_config` holds for truthy
overrides — a truthy `timeout` override wins regardless of the file's
timeout value (while a falsy override such as 0 falls back to the built-in
default 60), `transport`, `command` and `args` overrides win as given,
a nonempty `base_url` override wins up to the constructor's trailing-slash
normalization; with no override and no file value the timeout defaults to
60, and the `timeout=10` example resolves to 10. -/
theorem c1_amended :
    (∀ (tv ov : JVal), ov.truthy = true →
      okField MCPClient.timeout
        (from_config none none { timeout := some ov } testFS (readOf (stdioFile [(("timeout"), tv)])) noEnv)
        = some ov)
    ∧ (∀ (tv : JVal),
      okField MCPClient.timeout
        (from_config none none { timeout := some (.num 0) } testFS (readOf (stdioFile [(("timeout"), tv)])) noEnv)
        = some (.num 60))
    ∧ (okField MCPClient.timeout
        (from_config none none {} testFS (readOf (stdioFile [])) noEnv)
        = some (.num 60))
    ∧ (okField MCPClient.timeout
        (from_config none none { timeout := some (.num 10) } testFS (readOf (stdioFile [])) noEnv)
        = some (.num 10))
    ∧ (∀ (v : JVal), v ≠ .null →
      okField MCPClient.transport
        (from_config none none { transport := some v } testFS (readOf (sseFile ("http://f"))) noEnv)
        = some v)
    ∧ (∀ (fc v : String), fc ≠ "" →
      okField MCPClient.command
        (from_config none none { command := some (.str v) } testFS (readOf (stdioCmdFile fc)) noEnv)
        = some (.str v))
    ∧ (∀ (fu u : String), fu ≠ "" → u ≠ "" →
      okField MCPClient.base_url
        (from_config none none { base_url := some (.str u) } testFS (readOf (sseFile fu)) noEnv)
        = some (.str (rstripSlash u)))
    ∧ (∀ (xs : List JVal),
      okField MCPClient.args
        (from_config none none { args := some (.arr xs) } testFS (readOf (stdioFile [])) noEnv)
        = some (.arr xs)) := by
  refine ⟨?_, ?_, rfl, rfl, ?_, ?_, ?_, ?_⟩
  · intro tv ov h
    rw [timeout_pipeline_reduce, h, if_pos rfl]
    cases ov with
    | null => exact Bool.noConfusion h
    | bool b => rfl
    | num n => rfl
    | str s => rfl
    | arr l => rfl
    | obj l => rfl
  · intro tv
    rw [timeout_pipeline_reduce]
    rfl
  · intro v hv
    cases v with
    | null => exact absurd rfl hv
    | bool b => rfl
    | num n => rfl
    | str s => rfl
    | arr l => rfl
    | obj l => rfl
  · intro fc v hfc
    obtain ⟨fd⟩ := fc
    cases fd with
    | nil => exact absurd rfl hfc
    | cons a t => rfl
  · intro fu u hfu hu
    obtain ⟨fd⟩ := fu
    obtain ⟨ud⟩ := u
    cases fd with
    | nil => exact absurd rfl hfu
    | cons a t =>
      cases ud with
      | nil => exact absurd rfl hu
      | cons b t2 => rfl
  · intro xs
    cases xs with
    | nil => rfl
    | cons x t => rfl

/-- C1 witness: the amended theorem applied at concrete inputs. -/
theorem c1_witness :
    okField MCPClient.timeout
      (from_config none none { timeout := some (.num 7) } testFS (readOf (stdioFile [(("timeout"), JVal.num 99)])) noEnv)
      = some (.num 7) :=
  c1_amended.1 (.num 99) (.num 7) (by decide)

/-- A non-string value is Python-unequal to every string literal. -/
theorem eqStr_of_not_isStr {v : JVal} (h : v.isStr = false) (s : String) :
    v.eqStr s = false := by
  cases v <;> simp [JVal.isStr, JVal.eqStr] at h ⊢

/-- C2 counterexample: on a transport-`http` client the SECOND `_initialize`
call does not fail (the first left the exit stack set), refuting the claim
that every call fails. -/
theorem c2_counterexample :
    httpClient.transport = .str "http"
    ∧ (httpClient.init_step ("/usr/bin")).error.isSome = true
    ∧ ((httpClient.init_step ("/usr/bin")).state.init_step ("/usr/bin")).error = none
    ∧ ((httpClient.init_step ("/usr/bin")).state.init_step ("/usr/bin")).opened = [] :=
  ⟨rfl, rfl, rfl, rfl⟩

/-- C2 amended: on a client in the uninitialized state, `_initialize` with
transport `http` fails with the unsupported-transport `ValueError` and opens
nothing; so does any transport label other than stdio, sse, http, and any
non-string transport value. -/
theorem c2_amended :
    ∀ (c : MCPClient) (p : String), c.exit_stack = false →
      (c.transport = .str "http" →
        (c.init_step p).error
          = some (.valueError ("HTTP transport is not supported by the official MCP library. Use sse instead."))
        ∧ (c.init_step p).opened = [])
      ∧ (∀ s : String, c.transport = .str s → s ≠ "stdio" → s ≠ "sse" → s ≠ "http" →
        (∃ m, (c.init_step p).error = some (.valueError m)) ∧ (c.init_step p).opened = [])
      ∧ (c.transport.isStr = false →
        (∃ m, (c.init_step p).error = some (.valueError m)) ∧ (c.init_step p).opened = []) := by
  intro c p h
  refine ⟨?_, ?_, ?_⟩
  · intro ht
    constructor <;> simp [MCPClient.init_step, h, ht, JVal.eqStr]
  · intro s hts h1 h2 h3
    have b1 : (s == "stdio") = false := beq_eq_false_iff_ne.mpr h1
    have b2 : (s == "sse") = false := beq_eq_false_iff_ne.mpr h2
    have b3 : (s == "http") = false := beq_eq_false_iff_ne.mpr h3
    refine ⟨⟨"Unsupported transport protocol: " ++ pyStr (.str s), ?_⟩, ?_⟩ <;>
      simp [MCPClient.init_step, h, hts, JVal.eqStr, b1, b2, b3]
  · intro hns
    refine ⟨⟨"Unsupported transport protocol: " ++ pyStr c.transport, ?_⟩, ?_⟩ <;>
      simp [MCPClient.init_step, h, eqStr_of_not_isStr hns]

/-- C2 witness: the amended theorem applied to a fresh http client. -/
theorem c2_witness :
    (httpClient.init_step ("/usr/bin")).error
      = some (.valueError ("HTTP transport is not supported by the official MCP library. Use sse instead.")) :=
  ((c2_amended httpClient ("/usr/bin") rfl).1 rfl).1

/-- C3 counterexample: with an explicit alias but no `servers` map at all,
`from_config` raises the data-format `MCPDataError`, not a
configuration-missing condition (`ValueError`/`KeyError`). -/
theorem c3_counterexample :
    from_config (some "a") none {} testFS (readOf (.obj [])) noEnv
      = .error (.dataError ("Missing or invalid servers dictionary in /work/mcp.json."))
    ∧ (∀ m m', MCPErr.dataError m ≠ MCPErr.valueError m')
    ∧ (∀ m m', MCPErr.dataError m ≠ MCPErr.keyError m') :=
  ⟨rfl, fun _ _ h => MCPErr.noConfusion h, fun _ _ h => MCPErr.noConfusion h⟩

/-- C3 amended: alias resolution order as claimed; a missing alias fails with
configuration-missing (`ValueError` / `KeyError` for a missing entry), but an
absent or non-object `servers` map fails with the data-format condition. -/
theorem c3_amended :
    (∀ (sn : String) (cfg : JVal) (fp : String), sn ≠ "" →
      resolveTarget (some sn) cfg fp = .ok (.str sn))
    ∧ (∀ (fp : String) (rest : List (String × JVal)),
      resolveTarget none (.obj (("default_server", .str "b") :: rest)) fp = .ok (.str "b"))
    ∧ (∀ (fp : String),
      resolveTarget none (.obj [("servers", .obj [("default", .obj [])])]) fp
        = .ok (.str "default"))
    ∧ (∀ (fp : String),
      resolveTarget none (.obj [("servers", .obj [("a", .obj [])])]) fp
        = .error (.valueError ("No server_name specified and no default_server key or default server found in " ++ fp ++ ".")))
    ∧ (from_config (some "a") none {} testFS (readOf (.obj [("servers", .str "x")])) noEnv
        = .error (.dataError ("Missing or invalid servers dictionary in /work/mcp.json.")))
    ∧ (from_config (some "a") none {} testFS (readOf (.obj [("servers", .obj [])])) noEnv
        = .error (.keyError ("Server configuration a not found or is not a valid dictionary in /work/mcp.json.")))
    ∧ (from_config (some "a") none {} testFS (readOf (.obj [("servers", .obj [("a", .num 5)])])) noEnv
        = .error (.keyError ("Server configuration a not found or is not a valid dictionary in /work/mcp.json."))) := by
  refine ⟨?_, fun fp rest => rfl, fun fp => rfl, fun fp => rfl, rfl, rfl, rfl⟩
  intro sn cfg fp h
  obtain ⟨d⟩ := sn
  cases d with
  | nil => exact absurd rfl h
  | cons a t => rfl

/-- C3 witness: explicit alias wins at a concrete input. -/
theorem c3_witness :
    resolveTarget (some "a") (.obj [("default_server", .str "b")]) ("/x") = .ok (.str "a") :=
  c3_amended.1 ("a") (.obj [("default_server", .str "b")]) ("/x") (by decide)

end Mcpwire
namespace Mcpwire

/-- Head lookup hit. -/
theorem dictGet_cons_pos {p : String × JVal} {t : List (String × JVal)} {k : String}
    (h : (p.1 == k) = true) : dictGet (p :: t) k = some p.2 := by
  unfold dictGet
  rw [@List.find?_cons_of_pos (String × JVal) (fun q => q.1 == k) p t h]
  rfl

/-- Head lookup miss. -/
theorem dictGet_cons_neg {p : String × JVal} {t : List (String × JVal)} {k : String}
    (h : (p.1 == k) = false) : dictGet (p :: t) k = dictGet t k := by
  unfold dictGet
  rw [@List.find?_cons_of_neg (String × JVal) (fun q => q.1 == k) p t (by simp [h])]

/-- Keys matched by no entry are not found. -/
theorem find_none_of_any_false {d : List (String × JVal)} {k : String}
    (h : d.any (fun p => p.1 == k) = false) :
    d.find? (fun p => p.1 == k) = none := by
  induction d with
  | nil => rfl
  | cons p t ih =>
    simp only [List.any_cons, Bool.or_eq_false_iff] at h
    rw [@List.find?_cons_of_neg (String × JVal) (fun q => q.1 == k) p t (by simp [h.1])]
    exact ih h.2

/-- In-place replacement at `k`: looking up `k` afterwards yields the new
value exactly when some entry had key `k`. -/
theorem find_map_set (d : List (String × JVal)) (k : String) (v : JVal) :
    dictGet (d.map (fun p => if p.1 == k then (k, v) else p)) k
      = if d.any (fun p => p.1 == k) then some v else none := by
  induction d with
  | nil => rfl
  | cons p t ih =>
    rw [List.map_cons]
    by_cases hp : (p.1 == k) = true
    · rw [if_pos hp, dictGet_cons_pos (show ((k, v).1 == k) = true by simp)]
      simp only [List.any_cons, hp, Bool.true_or, if_pos]
    · have hp' : (p.1 == k) = false := by simpa using hp
      rw [if_neg hp, dictGet_cons_neg hp', ih]
      simp only [List.any_cons, hp', Bool.false_or]

/-- In-place replacement at `k` leaves lookups at other keys unchanged. -/
theorem dictGet_map_set_ne (d : List (String × JVal)) (k k' : String) (v : JVal)
    (hne : k' ≠ k) :
    dictGet (d.map (fun p => if p.1 == k then (k, v) else p)) k' = dictGet d k' := by
  induction d with
  | nil => rfl
  | cons p t ih =>
    rw [List.map_cons]
    by_cases hp : (p.1 == k) = true
    · have hpk : p.1 = k := eq_of_beq hp
      have h1 : ((k, v).1 == k') = false :=
        beq_eq_false_iff_ne.mpr (Ne.symm hne)
      have h2 : (p.1 == k') = false := by
        rw [hpk]
        exact beq_eq_false_iff_ne.mpr (Ne.symm hne)
      rw [if_pos hp, dictGet_cons_neg h1, dictGet_cons_neg h2, ih]
    · rw [if_neg hp]
      by_cases hq : (p.1 == k') = true
      · rw [dictGet_cons_pos hq, dictGet_cons_pos hq]
      · have hq' : (p.1 == k') = false := by simpa using hq
        rw [dictGet_cons_neg hq', dictGet_cons_neg hq', ih]

/-- Lookup after `d[k] = v`: the key `k` now maps to `v`. -/
theorem dictGet_dictSet_self (d : List (String × JVal)) (k : String) (v : JVal) :
    dictGet (dictSet d k v) k = some v := by
  unfold dictSet
  by_cases h : d.any (fun p => p.1 == k) = true
  · rw [if_pos h, find_map_set, if_pos h]
  · have h' : d.any (fun p => p.1 == k) = false := Bool.eq_false_iff.mpr h
    rw [if_neg h]
    unfold dictGet
    rw [List.find?_append, find_none_of_any_false h']
    rw [@List.find?_cons_of_pos (String × JVal) (fun q => q.1 == k) (k, v) [] (by simp)]
    rfl

/-- Lookup after `d[k] = v` at a different key is unchanged. -/
theorem dictGet_dictSet_ne (d : List (String × JVal)) (k k' : String) (v : JVal)
    (hne : k' ≠ k) :
    dictGet (dictSet d k v) k' = dictGet d k' := by
  unfold dictSet
  by_cases h : d.any (fun p => p.1 == k) = true
  · rw [if_pos h, dictGet_map_set_ne d k k' v hne]
  · rw [if_neg h]
    unfold dictGet
    rw [List.find?_append]
    have h1 : ((k, v).1 == k') = false := beq_eq_false_iff_ne.mpr (Ne.symm hne)
    rw [@List.find?_cons_of_neg (String × JVal) (fun q => q.1 == k') (k, v) [] (by simp [h1]),
      List.find?_nil]
    cases hf : List.find? (fun p => p.1 == k') d <;> simp [hf]

/-- Lookup of an absent key yields none. -/
theorem dictGet_eq_none_of_not_mem (d : List (String × JVal)) (k : String)
    (h : k ∉ d.map Prod.fst) : dictGet d k = none := by
  induction d with
  | nil => rfl
  | cons p t ih =>
    simp only [List.map_cons, List.mem_cons, not_or] at h
    have h1 : (p.1 == k) = false := beq_eq_false_iff_ne.mpr (fun hh => h.1 hh.symm)
    rw [dictGet_cons_neg h1]
    exact ih h.2

/-- `d.update(u)` for a dict `u` (no duplicate keys): a key found in `u`
wins, otherwise the original binding shows through. -/
theorem dictGet_dictUpdate (d u : List (String × JVal)) (k : String)
    (hu : (u.map Prod.fst).Nodup) :
    dictGet (dictUpdate d u) k
      = (dictGet u k).orElse (fun _ => dictGet d k) := by
  induction u generalizing d with
  | nil => rfl
  | cons p t ih =>
    simp only [List.map_cons, List.nodup_cons] at hu
    have step : dictUpdate d (p :: t) = dictUpdate (dictSet d p.1 p.2) t := rfl
    rw [step, ih _ hu.2]
    by_cases hk : (p.1 == k) = true
    · have hpk : p.1 = k := eq_of_beq hk
      have ht : dictGet t k = none := by
        apply dictGet_eq_none_of_not_mem
        rw [← hpk]
        simpa using hu.1
      rw [ht, hpk, dictGet_dictSet_self, dictGet_cons_pos hk]
      rfl
    · have hk' : (p.1 == k) = false := by simpa using hk
      have hne : k ≠ p.1 := fun hh => by simp [hh] at hk'
      rw [dictGet_dictSet_ne d p.1 k p.2 hne, dictGet_cons_neg hk']

end Mcpwire
namespace Mcpwire

/-- C4: `close()` before any initialization is a no-op that raises nothing
and touches no resource, and a second `close()` in a row is a no-op because
the first resets the state. -/
theorem c4_close_idempotent :
    ∀ c : MCPClient,
      (c.exit_stack = false → MCPClient.close c = (c, false))
      ∧ MCPClient.close (MCPClient.close c).1 = ((MCPClient.close c).1, false) := by
  intro c
  constructor
  · intro h
    simp [MCPClient.close, h]
  · cases hc : c.exit_stack <;> simp [MCPClient.close, hc]

/-- C4 witness: `close()` on a never-initialized client. -/
theorem c4_witness :
    MCPClient.close httpClient = (httpClient, false) :=
  (c4_close_idempotent httpClient).1 rfl

/-- C5: `env:FOO` with FOO unset or empty constructs successfully with no
Authorization header and a warning diagnostic; with FOO set to secret123
the header is `Bearer secret123`; an api_key not beginning with `env:` is
used verbatim as the secret. -/
theorem c5_api_key_resolution :
    (okAuth (MCPClient.construct { api_key := .str "env:FOO" } (envFOO none)) = some none
      ∧ okWarns (MCPClient.construct { api_key := .str "env:FOO" } (envFOO none))
          = some [missingKeyWarning ("FOO")])
    ∧ (okAuth (MCPClient.construct { api_key := .str "env:FOO" } (envFOO (some ""))) = some none
      ∧ okWarns (MCPClient.construct { api_key := .str "env:FOO" } (envFOO (some "")))
          = some [missingKeyWarning ("FOO")])
    ∧ okAuth (MCPClient.construct { api_key := .str "env:FOO" } (envFOO (some "secret123")))
        = some (some (.str "Bearer secret123"))
    ∧ (∀ s : String, strStartsWith s ("env:") = false → s ≠ "" →
      okAuth (MCPClient.construct { api_key := .str s } noEnv)
        = some (some (.str ("Bearer " ++ s)))) := by
  refine ⟨⟨rfl, rfl⟩, ⟨rfl, rfl⟩, rfl, ?_⟩
  intro s hs hne
  have hb : (s == "") = false := beq_eq_false_iff_ne.mpr hne
  simp [okAuth, MCPClient.construct, resolveApiKey, hs, hb, dictGet, dictSet, JVal.truthy]
  rfl

/-- C5 witness: a literal api_key used verbatim. -/
theorem c5_witness :
    okAuth (MCPClient.construct { api_key := .str "mykey" } noEnv)
      = some (some (.str ("Bearer " ++ "mykey"))) :=
  c5_api_key_resolution.2.2.2 ("mykey") (by decide) (by decide)

/-- Technical reduction for C6: the headers dict a construction with file
headers, caller headers and a plain secret produces. -/
theorem headers_pipeline_reduce (cdh dh : List (String × JVal)) :
    okHeaders (MCPClient.construct
      { api_key := .str "k", config_default_headers := .obj cdh, default_headers := .obj dh }
      noEnv)
      = some (dictSet (dictUpdate (dictUpdate [] cdh) dh) ("Authorization")
          (.str ("Bearer k"))) := by
  cases cdh <;> cases dh <;> rfl

/-- C6: headers are assembled file-sourced first, then caller-supplied
(later writes win per key), and the synthesized Authorization header is
written last, so the resolved secret wins on the Authorization key while
caller headers win over file headers on every other key. -/
theorem c6_header_assembly :
    ∀ (cdh dh : List (String × JVal)),
      (cdh.map Prod.fst).Nodup → (dh.map Prod.fst).Nodup →
      ∃ hs, okHeaders (MCPClient.construct
          { api_key := .str "k", config_default_headers := .obj cdh, default_headers := .obj dh }
          noEnv) = some hs
        ∧ dictGet hs ("Authorization") = some (.str ("Bearer k"))
        ∧ (∀ k, k ≠ "Authorization" →
            dictGet hs k = (dictGet dh k).orElse (fun _ => dictGet cdh k)) := by
  intro cdh dh h1 h2
  refine ⟨_, headers_pipeline_reduce cdh dh, dictGet_dictSet_self _ _ _, ?_⟩
  intro k hk
  rw [dictGet_dictSet_ne _ _ _ _ hk, dictGet_dictUpdate _ _ _ h2, dictGet_dictUpdate _ _ _ h1]
  cases dictGet dh k <;> cases dictGet cdh k <;> rfl

/-- C6 witness: concrete stale Authorization headers in both sources are
overridden by the synthesized one, and other keys merge caller-over-file. -/
theorem c6_witness :
    ∃ hs, okHeaders (MCPClient.construct
        { api_key := .str "k"
        , config_default_headers := .obj [("Authorization", .str "stale"), ("X", .num 1)]
        , default_headers := .obj [("Authorization", .str "staler"), ("Y", .num 2)] }
        noEnv) = some hs
      ∧ dictGet hs ("Authorization") = some (.str ("Bearer k")) := by
  obtain ⟨hs, he, ha, _⟩ :=
    c6_header_assembly [("Authorization", .str "stale"), ("X", .num 1)]
      [("Authorization", .str "staler"), ("Y", .num 2)] (by decide) (by decide)
  exact ⟨hs, he, ha⟩

end Mcpwire
namespace Mcpwire

/-- The head of a list with leading slashes dropped is never a slash. -/
theorem head_dropWhile_ne (l : List Char) :
    (l.dropWhile (fun c => c == '/')).head? ≠ some '/' := by
  induction l with
  | nil => simp [List.dropWhile]
  | cons a t ih =>
    rw [List.dropWhile_cons]
    by_cases hp : (a == '/') = true
    · rw [if_pos hp]
      exact ih
    · rw [if_neg hp]
      intro hh
      simp only [List.head?_cons, Option.some.injEq] at hh
      exact hp (by simp [hh])

end Mcpwire
namespace Mcpwire

/-- C7: malformed JSON in a located config file yields the data-format
`MCPDataError` whose message contains the file's path, distinct from the
`OSError` kind raised when the file cannot be read. -/
theorem c7_data_format :
    ∀ (cp : Option String) (fs : FileSystem) (p e : String) (sn : Option String)
      (kw : Kwargs) (env : String → Option String),
      find_config_file cp fs = some p →
      from_config sn cp kw fs (fun _ => .jsonError e) env
          = .error (.dataError ("Invalid JSON in configuration file " ++ p ++ ": " ++ e))
      ∧ (∃ a b, "Invalid JSON in configuration file " ++ p ++ ": " ++ e = a ++ p ++ b)
      ∧ from_config sn cp kw fs (fun _ => .ioError e) env
          = .error (.osError ("Could not read configuration file " ++ p ++ ": " ++ e))
      ∧ (∀ m m', MCPErr.dataError m ≠ MCPErr.osError m') := by
  intro cp fs p e sn kw env h
  refine ⟨?_, ⟨"Invalid JSON in configuration file ", ": " ++ e, ?_⟩, ?_,
    fun m m' hh => MCPErr.noConfusion hh⟩
  · simp only [from_config, h]
    rfl
  · rw [String.append_assoc]
  · simp only [from_config, h]
    rfl

/-- C7 witness: malformed JSON at the default search location. -/
theorem c7_witness :
    from_config none none {} testFS (fun _ => .jsonError ("expecting value")) noEnv
      = .error (.dataError ("Invalid JSON in configuration file " ++ "/work/mcp.json" ++ ": "
          ++ "expecting value")) :=
  (c7_data_format none testFS ("/work/mcp.json") ("expecting value") none {} noEnv rfl).1

/-- C8: with an explicit config path, the resolved explicit path is the only
candidate checked; when it does not exist the locator returns none without
consulting the search-path fallbacks, and `from_config` fails with the
file-not-found condition. -/
theorem c8_explicit_path :
    ∀ (p : String) (fs : FileSystem) (sn : Option String) (kw : Kwargs)
      (read : String → ReadResult) (env : String → Option String),
      configCandidates (some p) fs = [fs.resolve p]
      ∧ (fs.isFile (fs.resolve p) = false →
          find_config_file (some p) fs = none
          ∧ from_config sn (some p) kw fs read env
              = .error (.fileNotFound ("MCP configuration file not found at " ++ p
                  ++ " or in standard locations."))) := by
  intro p fs sn kw read env
  refine ⟨rfl, ?_⟩
  intro h
  have hf : find_config_file (some p) fs = none := by
    unfold find_config_file configCandidates
    rw [@List.find?_cons_of_neg String fs.isFile (fs.resolve p) [] (by simp [h]),
      List.find?_nil]
  refine ⟨hf, ?_⟩
  simp only [from_config, hf]
  rfl

/-- C8 witness: a filesystem with no files at all. -/
theorem c8_witness :
    find_config_file (some "/nope/mcp.json")
        { cwd := "/w", home := none, isFile := fun _ => false, resolve := fun p => p } = none
    ∧ from_config none (some "/nope/mcp.json") {}
        { cwd := "/w", home := none, isFile := fun _ => false, resolve := fun p => p }
        (fun _ => .ok .null) noEnv
      = .error (.fileNotFound ("MCP configuration file not found at " ++ "/nope/mcp.json"
          ++ " or in standard locations.")) :=
  (c8_explicit_path ("/nope/mcp.json")
    { cwd := "/w", home := none, isFile := fun _ => false, resolve := fun p => p }
    none {} (fun _ => .ok .null) noEnv).2 rfl

/-- C9: a failed `_initialize` is not rolled back — the exit stack stays
set, the session stays absent, every subsequent `_initialize` returns
without raising and opens nothing, leaving the state unchanged, until
`close()` resets the initialization flag. -/
theorem c9_failed_init_not_rolled_back :
    ∀ (c : MCPClient) (p : String), c.exit_stack = false → c.mcp_client = false →
      (c.init_step p).error.isSome = true →
      (c.init_step p).state.exit_stack = true
      ∧ (c.init_step p).state.mcp_client = false
      ∧ ((c.init_step p).state.init_step p).error = none
      ∧ ((c.init_step p).state.init_step p).opened = []
      ∧ ((c.init_step p).state.init_step p).state = (c.init_step p).state
      ∧ (MCPClient.close (c.init_step p).state).1.exit_stack = false := by
  intro c p h1 h2 hfail
  cases b1 : JVal.eqStr c.transport ("stdio") with
  | true => simp [MCPClient.init_step, h1, b1] at hfail
  | false =>
    cases b2 : JVal.eqStr c.transport ("sse") with
    | true =>
      cases b3 : c.base_url.truthy with
      | false =>
        refine ⟨?_, ?_, ?_, ?_, ?_, ?_⟩ <;>
          simp [MCPClient.init_step, MCPClient.close, h1, h2, b1, b2, b3]
      | true => simp [MCPClient.init_step, h1, b1, b2, b3] at hfail
    | false =>
      cases b4 : JVal.eqStr c.transport ("http") with
      | true =>
        refine ⟨?_, ?_, ?_, ?_, ?_, ?_⟩ <;>
          simp [MCPClient.init_step, MCPClient.close, h1, h2, b1, b2, b4]
      | false =>
        refine ⟨?_, ?_, ?_, ?_, ?_, ?_⟩ <;>
          simp [MCPClient.init_step, MCPClient.close, h1, h2, b1, b2, b4]

/-- C9 witness: the http client after its failed first initialization. -/
theorem c9_witness :
    ((httpClient.init_step ("/usr/bin")).state.init_step ("/usr/bin")).error = none
    ∧ (MCPClient.close (httpClient.init_step ("/usr/bin")).state).1.exit_stack = false := by
  obtain ⟨_, _, h3, _, _, h6⟩ :=
    c9_failed_init_not_rolled_back httpClient ("/usr/bin") rfl rfl rfl
  exact ⟨h3, h6⟩

/-- C10 counterexample: the constructor stores `base_url="/"` as the empty
string, not as `None`, refuting the claim that a stored base_url is never
the empty string. -/
theorem c10_counterexample :
    okField MCPClient.base_url (MCPClient.construct { base_url := .str "/" } noEnv)
      = some (.str "")
    ∧ JVal.str "" ≠ JVal.null :=
  ⟨rfl, fun h => JVal.noConfusion h⟩

/-- C10 amended: a nonempty base_url is stored with all trailing slashes
removed (which may leave the empty string when the input is all slashes);
`None` and the empty string are stored as `None`; a stored base_url string
never ends in a slash. -/
theorem c10_amended :
    (∀ s : String, s ≠ "" →
      okField MCPClient.base_url (MCPClient.construct { base_url := .str s } noEnv)
        = some (.str (rstripSlash s)))
    ∧ okField MCPClient.base_url (MCPClient.construct { base_url := .str "" } noEnv)
        = some .null
    ∧ okField MCPClient.base_url (MCPClient.construct { base_url := .null } noEnv)
        = some .null
    ∧ (∀ s : String, (rstripSlash s).data.getLast? ≠ some '/') := by
  refine ⟨?_, rfl, rfl, ?_⟩
  · intro s hs
    obtain ⟨d⟩ := s
    cases d with
    | nil => exact absurd rfl hs
    | cons a t => rfl
  · intro s
    show (String.mk ((s.data.reverse.dropWhile (fun c => c == '/')).reverse)).data.getLast?
      ≠ some '/'
    rw [show (String.mk ((s.data.reverse.dropWhile (fun c => c == '/')).reverse)).data
        = (s.data.reverse.dropWhile (fun c => c == '/')).reverse from rfl]
    rw [List.getLast?_reverse]
    exact head_dropWhile_ne (s.data.reverse)

/-- C10 witness: a URL with trailing slashes is normalized. -/
theorem c10_witness :
    okField MCPClient.base_url
        (MCPClient.construct { base_url := .str "http://x//" } noEnv)
      = some (.str (rstripSlash ("http://x//"))) :=
  c10_amended.1 ("http://x//") (by decide)

end Mcpwire
